import Mathlib

/-!
Shallow embedding of the experiment-orchestration core of the
rag-with-conversation-history repository: the language-model wrapper
(src/llm_handler.py), the query enhancer (src/query_enhancer.py), the
search wrapper (src/search_handler.py), the experiment orchestrator
(experiments/experiment_runner.py) and the focus-coverage evaluator
(src/evaluator.py).

External collaborators (the OpenAI chat-completion endpoint and the
HTTP search backends) are modelled as explicit function parameters of
type Except String, so a raised Python exception is the .error case and
a normal return is the .ok case.  Timestamps (datetime.now) are passed
in as an explicit parameter.  Floating-point relevance scores are not
modelled; no embedded operation reads them.
-/

/-- Message roles of the chat-completion boundary. -/
inductive Role where
  | system
  | user
  | assistant
deriving DecidableEq, Repr

/-- One role-tagged message sent to the language-model provider. -/
structure Message where
  role : Role
  content : String
deriving DecidableEq, Repr

/-- Token-usage counts returned by the provider. -/
structure Usage where
  prompt_tokens : Nat
  completion_tokens : Nat
  total_tokens : Nat
deriving DecidableEq, Repr

/-- Raw provider output: generated text plus usage counts. -/
structure LLMOut where
  content : String
  usage : Usage
deriving DecidableEq, Repr

/-- The language-model provider boundary: the formatted message list in,
either generated output or a raised error message out. -/
def LLM : Type := List Message → Except String LLMOut

/-- Python LLMHandler.generate_response accepts either a plain string or
an already-built message list. -/
inductive MsgInput where
  | str : String → MsgInput
  | list : List Message → MsgInput

/-- config/settings.py DEFAULT_MODEL. -/
def DEFAULT_MODEL : String := "gpt-4o"

/-- config/prompts.py SYSTEM_PROMPTS, key d1_no_history (exact text,
including the indentation kept inside the Python triple-quoted string). -/
def SYSTEM_PROMPT_d1_no_history : String :=
  "You are a helpful assistant. Provide accurate, informative responses to user questions. \n    Focus on being clear, concise, and helpful."

/-- config/prompts.py SYSTEM_PROMPTS, key d2_with_history. -/
def SYSTEM_PROMPT_d2_with_history : String :=
  "You are a helpful assistant engaged in an ongoing conversation. \n    Use the conversation history to provide contextually relevant responses. \n    Build upon previous exchanges while directly addressing the current question."

/-- config/prompts.py SYSTEM_PROMPTS, key d3_rag_no_history. -/
def SYSTEM_PROMPT_d3_rag_no_history : String :=
  "You are a helpful assistant with access to real-time search results. \n    Use the provided search results to give accurate, up-to-date information. \n    Cite relevant information from the search results when appropriate."

/-- config/prompts.py SYSTEM_PROMPTS, key d4_rag_with_history. -/
def SYSTEM_PROMPT_d4_rag_with_history : String :=
  "You are a helpful assistant with access to both conversation history and real-time search results. \n    Use the conversation context and search results to provide comprehensive, contextually relevant responses. \n    Build upon the conversation while incorporating current information from search results."

/-- The message list LLMHandler.generate_response actually sends: the
optional system prompt first, then the caller messages (a single user
turn when a plain string was passed). -/
def formatted_messages (system_prompt : Option String) (messages : MsgInput) : List Message :=
  (match system_prompt with
   | some s => [⟨Role.system, s⟩]
   | none => []) ++
  (match messages with
   | MsgInput.str s => [⟨Role.user, s⟩]
   | MsgInput.list l => l)

/-- Successful result of LLMHandler.generate_response. -/
structure GenResult where
  response : String
  model : String
  usage : Usage
deriving DecidableEq, Repr

/-- LLMHandler.generate_response: send the formatted messages; any
provider failure is re-raised with the fixed prefix. -/
def generate_response (llm : LLM) (messages : MsgInput) (system_prompt : Option String) :
    Except String GenResult :=
  match llm (formatted_messages system_prompt messages) with
  | Except.ok out =>
      Except.ok { response := out.content, model := DEFAULT_MODEL, usage := out.usage }
  | Except.error e => Except.error ("LLM generation failed: " ++ e)

/-- The alternating-role mapping applied to the conversation history in
generate_d2_response and generate_d4_response: even zero-based index
becomes a user turn, odd becomes an assistant turn. -/
def historyMessages (history : List String) : List Message :=
  history.enum.map (fun p => ⟨if p.1 % 2 = 0 then Role.user else Role.assistant, p.2⟩)

/-- The message list built by LLMHandler.generate_d2_response: mapped
history then the current question as a final user turn. -/
def d2_messages (history : List String) (question : String) : List Message :=
  historyMessages history ++ [⟨Role.user, question⟩]

/-- LLMHandler.generate_d1_response. -/
def generate_d1_response (llm : LLM) (question : String) : Except String GenResult :=
  generate_response llm (MsgInput.str question) (some SYSTEM_PROMPT_d1_no_history)

/-- LLMHandler.generate_d2_response. -/
def generate_d2_response (llm : LLM) (history : List String) (question : String) :
    Except String GenResult :=
  generate_response llm (MsgInput.list (d2_messages history question))
    (some SYSTEM_PROMPT_d2_with_history)

/-- One search result as seen by the formatting code: a Python dict that
may lack any of the keys, hence Option fields (result.get with default). -/
structure SearchResult where
  title : Option String
  content : Option String
  snippet : Option String
  url : Option String
deriving DecidableEq, Repr

/-- The displayed title: result.get with default No title. -/
def displayTitle (r : SearchResult) : String := r.title.getD "No title"

/-- The displayed body: content, else snippet, else the No content default. -/
def displayContent (r : SearchResult) : String := r.content.getD (r.snippet.getD "No content")

/-- The displayed source url: result.get with default empty string. -/
def displayUrl (r : SearchResult) : String := r.url.getD ""

/-- One numbered entry of LLMHandler.format_search_results. -/
def entryLine (n : Nat) (r : SearchResult) : String :=
  toString n ++ ". " ++ displayTitle r ++ "\n   " ++ displayContent r ++
    "\n   Source: " ++ displayUrl r ++ "\n"

/-- The per-result lines built by LLMHandler.format_search_results:
enumerate(search_results[:5], 1). -/
def formattedEntries (search_results : List SearchResult) : List String :=
  (List.enumFrom 1 (search_results.take 5)).map (fun p => entryLine p.1 p.2)

/-- LLMHandler.format_search_results (written with a leading underscore
in the source): the fixed marker for an empty list, else the joined
numbered entries. -/
def format_search_results (search_results : List SearchResult) : String :=
  if search_results.isEmpty then "No search results available."
  else String.intercalate "\n" (formattedEntries search_results)

/-- LLMHandler.generate_d3_response. -/
def generate_d3_response (llm : LLM) (question : String)
    (search_results : List SearchResult) : Except String GenResult :=
  generate_response llm
    (MsgInput.str ("Search Results:\n" ++ format_search_results search_results ++
      "\n\nQuestion: " ++ question))
    (some SYSTEM_PROMPT_d3_rag_no_history)

/-- The mid-sequence system message generate_d4_response injects. -/
def searchContextMessage (search_results : List SearchResult) : Message :=
  ⟨Role.system, "Search Results:\n" ++ format_search_results search_results⟩

/-- The message list built by LLMHandler.generate_d4_response: mapped
history, then the search-context system message, then the question. -/
def d4_messages (history : List String) (question : String)
    (search_results : List SearchResult) : List Message :=
  historyMessages history ++ [searchContextMessage search_results] ++ [⟨Role.user, question⟩]

/-- LLMHandler.generate_d4_response. -/
def generate_d4_response (llm : LLM) (history : List String) (question : String)
    (search_results : List SearchResult) : Except String GenResult :=
  generate_response llm (MsgInput.list (d4_messages history question search_results))
    (some SYSTEM_PROMPT_d4_rag_with_history)

/-- Python str.strip default whitespace set (space, tab, newline,
carriage return, vertical tab, form feed). -/
def isPyWs (c : Char) : Bool :=
  c == ' ' || c == '\t' || c == '\n' || c == '\r' || c.toNat == 11 || c.toNat == 12

/-- The character set of the Python strip call that removes wrapping
quotes: double quote (34) and single quote (39). -/
def isQuoteChar (c : Char) : Bool :=
  c.toNat == 34 || c.toNat == 39

/-- Python two-sided strip on a character list: drop matching characters
from both ends. -/
def pyStrip (p : Char → Bool) (l : List Char) : List Char :=
  ((l.dropWhile p).reverse.dropWhile p).reverse

/-- Python two-sided strip on strings. -/
def pyStripStr (p : Char → Bool) (s : String) : String :=
  String.mk (pyStrip p s.data)

/-- Python str.lower, modelled character-wise (ASCII case folding; the
code only lower-cases engine names and keyword text for comparison). -/
def strLower (s : String) : String := String.mk (s.data.map Char.toLower)

/-- config/prompts.py QUERY_ENHANCEMENT_PROMPT with the history and
current_question slots filled, as in QueryEnhancer.enhance_query. -/
def QUERY_ENHANCEMENT_PROMPT (history current_question : String) : String :=
  "Given the conversation history and current question, generate an enhanced search query that captures the full context and intent.\n\nConversation History:\n" ++
  history ++
  "\n\nCurrent Question:\n" ++
  current_question ++
  "\n\nGenerate a comprehensive search query that would retrieve the most relevant information for answering the current question in the context of this conversation. \nFocus on key concepts, domain-specific terms, and the progressive nature of the conversation.\n\nEnhanced Search Query:"

/-- The exact prompt string QueryEnhancer.enhance_query sends: the
history rendered as a bulleted list, spliced into the template. -/
def enhance_prompt (conversation_history : List String) (current_question : String) : String :=
  QUERY_ENHANCEMENT_PROMPT
    (String.intercalate "\n" (conversation_history.map (fun msg => "- " ++ msg)))
    current_question

/-- The record QueryEnhancer.enhance_query returns; error is the extra
key present only in the fallback branch. -/
structure EnhanceResult where
  original_question : String
  enhanced_query : String
  history_length : Nat
  error : Option String
deriving DecidableEq, Repr

/-- QueryEnhancer.enhance_query: ask the provider (no system role) for an
enhanced query, strip whitespace then wrapping quotes; on any raised
failure fall back to the original question and record the error. -/
def enhance_query (llm : LLM) (conversation_history : List String)
    (current_question : String) : EnhanceResult :=
  match generate_response llm
      (MsgInput.str (enhance_prompt conversation_history current_question)) none with
  | Except.ok result =>
      { original_question := current_question
        enhanced_query := pyStripStr isQuoteChar (pyStripStr isPyWs result.response)
        history_length := conversation_history.length
        error := none }
  | Except.error e =>
      { original_question := current_question
        enhanced_query := current_question
        history_length := conversation_history.length
        error := some ("Query enhancement failed: " ++ e) }

/-- Python truthiness of the optional api_key string: None and the empty
string are falsy. -/
def pyTruthy (o : Option String) : Bool :=
  match o with
  | none => false
  | some s => !s.isEmpty

/-- SearchHandler state: the lower-cased engine name and the stored key. -/
structure SearchHandler where
  engine : String
  api_key : Option String
deriving DecidableEq, Repr

/-- SearchHandler.__init__: raises ValueError when no key is given and
the (as-written, pre-lower-casing) engine name is tavily or brave;
otherwise stores the lower-cased engine and the key. -/
def SearchHandler.make (engine : String) (api_key : Option String) :
    Except String SearchHandler :=
  if !pyTruthy api_key && (engine == "tavily" || engine == "brave") then
    Except.error ("API key required for " ++ engine ++ " search engine")
  else
    Except.ok { engine := strLower engine, api_key := api_key }

/-- The record SearchHandler search methods return. -/
structure SearchData where
  results : List SearchResult
  query : String
  engine : String
  answer : Option String
  error : Option String
deriving DecidableEq, Repr

/-- The network boundary of a search backend: for a query, either the
normalized result list (plus the optional answer text Tavily returns) or
a raised transport or decoding error. -/
def Net : Type := String → Except String (List SearchResult × Option String)

/-- SearchHandler._search_tavily: normalized results tagged tavily; a
raised error is re-raised with the fixed prefix. -/
def search_tavily (net : Net) (query : String) : Except String SearchData :=
  match net query with
  | Except.ok (results, answer) =>
      Except.ok { results := results, query := query, engine := "tavily",
                  answer := answer, error := none }
  | Except.error e => Except.error ("Tavily search failed: " ++ e)

/-- SearchHandler._search_brave: normalized results tagged brave (no
answer field); a raised error is re-raised with the fixed prefix. -/
def search_brave (net : Net) (query : String) : Except String SearchData :=
  match net query with
  | Except.ok (results, _) =>
      Except.ok { results := results, query := query, engine := "brave",
                  answer := none, error := none }
  | Except.error e => Except.error ("Brave search failed: " ++ e)

/-- SearchHandler.search: dispatch on the stored engine name; any other
engine raises the unsupported-engine error. -/
def SearchHandler.search (h : SearchHandler) (net : Net) (query : String) :
    Except String SearchData :=
  if h.engine == "tavily" then search_tavily net query
  else if h.engine == "brave" then search_brave net query
  else Except.error ("Unsupported search engine: " ++ h.engine)

/-- SearchHandler.search_with_fallback: try the search; if it raised and
the stored key is falsy, return the empty fallback record carrying the
fixed error field; otherwise re-raise. -/
def SearchHandler.search_with_fallback (h : SearchHandler) (net : Net) (query : String) :
    Except String SearchData :=
  match h.search net query with
  | Except.ok d => Except.ok d
  | Except.error e =>
      if !pyTruthy h.api_key then
        Except.ok { results := [], query := query, engine := "none",
                    answer := none, error := some "No search API key provided" }
      else Except.error e

/-- One result record of ExperimentRunner.run_d1 .. run_d4.  Keys absent
from the Python dict are none; a failure record carries only the method,
the error message and the timestamp. -/
structure ExperimentResult where
  method : String
  response : Option String := none
  usage : Option Usage := none
  search_results : Option (List SearchResult) := none
  search_query : Option String := none
  search_engine : Option String := none
  original_question : Option String := none
  query_enhancement : Option EnhanceResult := none
  history_length : Option Nat := none
  error : Option String := none
  timestamp : String
deriving DecidableEq, Repr

/-- The search handler slot of ExperimentRunner: absent when no search
key was configured, otherwise the bound search method (max_results is
absorbed into the network boundary). -/
def SearchSlot : Type := Option (String → Except String SearchData)

/-- The search step shared by run_d3 and run_d4: no handler means empty
results and the engine default none; a handler failure propagates. -/
def search_step (searchH : SearchSlot) (query : String) :
    Except String (List SearchResult × String) :=
  match searchH with
  | none => Except.ok ([], "none")
  | some s =>
      match s query with
      | Except.ok d => Except.ok (d.results, d.engine)
      | Except.error e => Except.error e

/-- ExperimentRunner.run_d1. -/
def run_d1 (llm : LLM) (question : String) (now : String) : ExperimentResult :=
  match generate_d1_response llm question with
  | Except.ok r =>
      { method := "D1_LLM_ONLY", response := some r.response, usage := some r.usage,
        timestamp := now }
  | Except.error e =>
      { method := "D1_LLM_ONLY", error := some e, timestamp := now }

/-- ExperimentRunner.run_d2. -/
def run_d2 (llm : LLM) (conversation_history : List String) (question : String)
    (now : String) : ExperimentResult :=
  match generate_d2_response llm conversation_history question with
  | Except.ok r =>
      { method := "D2_LLM_WITH_HISTORY", response := some r.response, usage := some r.usage,
        history_length := some conversation_history.length, timestamp := now }
  | Except.error e =>
      { method := "D2_LLM_WITH_HISTORY", error := some e, timestamp := now }

/-- The fallible part of run_d3: optional search then generation. -/
def d3_pipeline (llm : LLM) (searchH : SearchSlot) (question : String) :
    Except String ((List SearchResult × String) × GenResult) :=
  match search_step searchH question with
  | Except.error e => Except.error e
  | Except.ok (results, engine) =>
      match generate_d3_response llm question results with
      | Except.error e => Except.error e
      | Except.ok r => Except.ok ((results, engine), r)

/-- ExperimentRunner.run_d3. -/
def run_d3 (llm : LLM) (searchH : SearchSlot) (question : String) (now : String) :
    ExperimentResult :=
  match d3_pipeline llm searchH question with
  | Except.ok ((results, engine), r) =>
      { method := "D3_RAG_CURRENT_ONLY", response := some r.response, usage := some r.usage,
        search_results := some results, search_query := some question,
        search_engine := some engine, timestamp := now }
  | Except.error e =>
      { method := "D3_RAG_CURRENT_ONLY", error := some e, timestamp := now }

/-- The fallible part of run_d4 after query enhancement: search on the
enhanced query then generation.  Query enhancement itself never raises,
so it does not appear as a failure source here. -/
def d4_pipeline (llm : LLM) (searchH : SearchSlot) (conversation_history : List String)
    (question : String) : Except String ((List SearchResult × String) × GenResult) :=
  match search_step searchH
      (enhance_query llm conversation_history question).enhanced_query with
  | Except.error e => Except.error e
  | Except.ok (results, engine) =>
      match generate_d4_response llm conversation_history question results with
      | Except.error e => Except.error e
      | Except.ok r => Except.ok ((results, engine), r)

/-- ExperimentRunner.run_d4. -/
def run_d4 (llm : LLM) (searchH : SearchSlot) (conversation_history : List String)
    (question : String) (now : String) : ExperimentResult :=
  match d4_pipeline llm searchH conversation_history question with
  | Except.ok ((results, engine), r) =>
      { method := "D4_RAG_WITH_HISTORY", response := some r.response, usage := some r.usage,
        search_results := some results,
        search_query := some (enhance_query llm conversation_history question).enhanced_query,
        original_question := some question,
        query_enhancement := some (enhance_query llm conversation_history question),
        history_length := some conversation_history.length,
        search_engine := some engine, timestamp := now }
  | Except.error e =>
      { method := "D4_RAG_WITH_HISTORY", error := some e, timestamp := now }

/-- Whether the first list is an initial segment of the second, matching
Python substring search step by step. -/
def listStartsWith (needle hay : List Char) : Bool :=
  match needle, hay with
  | [], _ => true
  | _ :: _, [] => false
  | c :: ns, d :: hs => c == d && listStartsWith ns hs

/-- Python substring containment (the in operator) on character lists. -/
def listHasSub (needle hay : List Char) : Bool :=
  match hay with
  | [] => needle.isEmpty
  | _ :: hs => listStartsWith needle hay || listHasSub needle hs

/-- Python substring containment on strings. -/
def strIn (needle hay : String) : Bool := listHasSub needle.data hay.data

/-- Python str.split with no argument: split on whitespace runs,
discarding empty pieces.  The first argument accumulates the current
word in reverse. -/
def pySplitAux (cur : List Char) : List Char → List (List Char)
  | [] => if cur.isEmpty then [] else [cur.reverse]
  | c :: rest =>
      if isPyWs c then
        if cur.isEmpty then pySplitAux [] rest
        else cur.reverse :: pySplitAux [] rest
      else pySplitAux (c :: cur) rest

/-- Python str.split with no argument, on strings. -/
def pySplitWs (s : String) : List (List Char) := pySplitAux [] s.data

/-- The weight one focus term contributes in
ResponseEvaluator._calculate_focus_coverage: 1 for a full lower-cased
substring match, else 0.5 when some word of the term longer than three
characters occurs in the response, else 0. -/
def focusWeight (response_lower : String) (focus_area : String) : ℚ :=
  if strIn (strLower focus_area) response_lower then 1
  else if (pySplitWs (strLower focus_area)).any
      (fun w => decide (3 < w.length) && listHasSub w response_lower.data) then 1/2
  else 0

/-- ResponseEvaluator._calculate_focus_coverage: the summed weights over
the expected focus terms divided by their count; 0.0 for no terms. -/
def calculate_focus_coverage (response : String) (expected_focus : List String) : ℚ :=
  if expected_focus.isEmpty then 0
  else
    ((expected_focus.map (focusWeight (strLower response))).sum) / (expected_focus.length : ℚ)

/-- A provider that always raises with a fixed message. -/
def llmFail : LLM := fun _ => Except.error "provider down"

/-- A provider that always raises with the message boom. -/
def llmBoom : LLM := fun _ => Except.error "boom"

/-- A provider that returns the text improved query wrapped in double
quotes. -/
def llmQuoted : LLM := fun _ => Except.ok ⟨"\"improved query\"", ⟨0, 0, 0⟩⟩

/-- A provider that raises exactly on single-message requests.  The
query-enhancement call sends exactly one message (the prompt, with no
system role), while every strategy request carries at least a system
prompt plus a user turn, so this provider fails enhancement and nothing
else. -/
def llmLenOne : LLM := fun ms =>
  if ms.length == 1 then Except.error "enhancement provider down"
  else Except.ok ⟨"resp", ⟨1, 1, 2⟩⟩

/-- A search network boundary returning no results. -/
def netEmpty : Net := fun _ => Except.ok ([], none)

/-- The handler state produced by constructing a SearchHandler with the
engine duckduckgo and no API key. -/
def handlerNoKey : SearchHandler := ⟨"duckduckgo", none⟩

/-- The shape every strategy record shares: the fixed method tag, the
supplied timestamp, and either a response with no error or an error with
none of the response fields. -/
def wellFormedResult (r : ExperimentResult) (tag now : String) : Prop :=
  r.method = tag ∧ r.timestamp = now ∧
  ((r.error = none ∧ r.response.isSome = true) ∨
   (r.error.isSome = true ∧ r.response = none ∧ r.usage = none ∧ r.search_results = none))

lemma head?_dropWhile_not (p : Char → Bool) :
    ∀ (l : List Char) (c : Char), (l.dropWhile p).head? = some c → p c = false := by
  intro l
  induction l with
  | nil => intro c h; simp [List.dropWhile] at h
  | cons a t ih =>
      intro c h
      by_cases hp : p a = true
      · rw [List.dropWhile_cons_of_pos hp] at h
        exact ih c h
      · rw [List.dropWhile_cons_of_neg hp] at h
        simp at h
        rw [← h]
        simpa using hp

lemma getLast?_dropWhile (p : Char → Bool) :
    ∀ (l : List Char) (c : Char), (l.dropWhile p).getLast? = some c → l.getLast? = some c := by
  intro l
  induction l with
  | nil => intro c h; simp [List.dropWhile] at h
  | cons a t ih =>
      intro c h
      by_cases hp : p a = true
      · rw [List.dropWhile_cons_of_pos hp] at h
        have ht := ih c h
        match t, ht with
        | b :: t2, ht => exact ht
      · rw [List.dropWhile_cons_of_neg hp] at h
        exact h

lemma pyStrip_getLast?_not (p : Char → Bool) (l : List Char) (c : Char)
    (h : (pyStrip p l).getLast? = some c) : p c = false := by
  unfold pyStrip at h
  rw [List.getLast?_reverse] at h
  exact head?_dropWhile_not p _ c h

lemma pyStrip_head?_not (p : Char → Bool) (l : List Char) (c : Char)
    (h : (pyStrip p l).head? = some c) : p c = false := by
  unfold pyStrip at h
  rw [List.head?_reverse] at h
  have h2 := getLast?_dropWhile p _ c h
  rw [List.getLast?_reverse] at h2
  exact head?_dropWhile_not p _ c h2

/-- Claim C10: in both the success branch and the fallback branch, the
record returned by QueryEnhancer.enhance_query has original_question
equal to the input question and history_length equal to the number of
entries of the input history. -/
theorem claim_C10 (llm : LLM) (history : List String) (question : String) :
    (enhance_query llm history question).original_question = question ∧
    (enhance_query llm history question).history_length = history.length := by
  unfold enhance_query
  cases generate_response llm (MsgInput.str (enhance_prompt history question)) none <;> simp

/-- Claim C4: when the provider call inside QueryEnhancer.enhance_query
raises, enhance_query does not propagate the failure and returns a
record whose enhanced_query equals the original question and which
carries an error message. -/
theorem claim_C4 (llm : LLM) (history : List String) (question e : String)
    (h : generate_response llm (MsgInput.str (enhance_prompt history question)) none =
      Except.error e) :
    (enhance_query llm history question).enhanced_query = question ∧
    (enhance_query llm history question).error =
      some ("Query enhancement failed: " ++ e) := by
  unfold enhance_query
  rw [h]
  exact ⟨rfl, rfl⟩

/-- Witness for claim C4 at a provider that always raises. -/
theorem claim_C4_witness :
    (enhance_query llmFail [] "hello").enhanced_query = "hello" ∧
    (enhance_query llmFail [] "hello").error =
      some ("Query enhancement failed: " ++ "LLM generation failed: provider down") :=
  claim_C4 llmFail [] "hello" "LLM generation failed: provider down" rfl

/-- Claim C5: when the provider succeeds, enhance_query applies the
Python whitespace strip followed by the quote strip to the returned
text, so the stored enhanced query neither starts nor ends with a quote
character; for a provider response that is improved query wrapped in
double quotes, the enhanced query is improved query without quotes. -/
theorem claim_C5 :
    (∀ (llm : LLM) (history : List String) (question : String) (r : GenResult),
      generate_response llm (MsgInput.str (enhance_prompt history question)) none =
        Except.ok r →
      (enhance_query llm history question).enhanced_query =
        pyStripStr isQuoteChar (pyStripStr isPyWs r.response) ∧
      (∀ c,
        ((enhance_query llm history question).enhanced_query.data.head? = some c →
          isQuoteChar c = false) ∧
        ((enhance_query llm history question).enhanced_query.data.getLast? = some c →
          isQuoteChar c = false))) ∧
    (enhance_query llmQuoted [] "q").enhanced_query = "improved query" := by
  constructor
  · intro llm history question r h
    have hq : (enhance_query llm history question).enhanced_query =
        pyStripStr isQuoteChar (pyStripStr isPyWs r.response) := by
      unfold enhance_query
      rw [h]
    refine ⟨hq, fun c => ⟨fun hh => ?_, fun hl => ?_⟩⟩
    · rw [hq] at hh
      exact pyStrip_head?_not isQuoteChar _ c hh
    · rw [hq] at hl
      exact pyStrip_getLast?_not isQuoteChar _ c hl
  · decide

/-- Witness for claim C5 at the double-quoted provider response. -/
theorem claim_C5_witness :
    (enhance_query llmQuoted [] "q").enhanced_query =
      pyStripStr isQuoteChar (pyStripStr isPyWs "\"improved query\"") :=
  (claim_C5.1 llmQuoted [] "q" ⟨"\"improved query\"", DEFAULT_MODEL, ⟨0, 0, 0⟩⟩ rfl).1

/-- Claim C8 as stated is false: the raised message is not equal to the
provider message; it is the provider message with the fixed prefix
prepended.  Concretely, a provider error boom surfaces as LLM generation
failed: boom. -/
theorem claim_C8_counterexample :
    generate_response llmBoom (MsgInput.str "q") none =
      Except.error "LLM generation failed: boom" ∧
    ("LLM generation failed: boom" : String) ≠ "boom" := by
  exact ⟨rfl, by decide⟩

/-- Claim C8 amended: when the provider call fails, generate_response
fails, with no retry, with a message that carries the provider message
verbatim after the fixed prefix LLM generation failed. -/
theorem claim_C8_amended (llm : LLM) (messages : MsgInput) (system_prompt : Option String)
    (e : String) (h : llm (formatted_messages system_prompt messages) = Except.error e) :
    generate_response llm messages system_prompt =
      Except.error ("LLM generation failed: " ++ e) := by
  unfold generate_response
  rw [h]

/-- Witness for the amended claim C8. -/
theorem claim_C8_amended_witness :
    generate_response llmBoom (MsgInput.str "w") none =
      Except.error ("LLM generation failed: " ++ "boom") :=
  claim_C8_amended llmBoom (MsgInput.str "w") none "boom" rfl

lemma historyMessages_length (history : List String) :
    (historyMessages history).length = history.length := by
  unfold historyMessages
  rw [List.length_map, List.enum_length]

lemma historyMessages_getElem? (history : List String) (i : Nat) :
    (historyMessages history)[i]? =
      history[i]?.map
        (fun s => ⟨if i % 2 = 0 then Role.user else Role.assistant, s⟩) := by
  unfold historyMessages
  rw [List.getElem?_map, List.enum, List.getElem?_enumFrom]
  cases history[i]? <;> simp

/-- Claim C3: D2 message assembly maps the history entry at zero-based
position i to a user turn when i is even and an assistant turn when i is
odd, preserves order, and appends the question as the final user turn;
the given two-turn scenario produces exactly the listed three messages. -/
theorem claim_C3 :
    (∀ (history : List String) (question : String),
      (d2_messages history question).length = history.length + 1 ∧
      (∀ i, i < history.length →
        (d2_messages history question)[i]? =
          history[i]?.map
            (fun s => ⟨if i % 2 = 0 then Role.user else Role.assistant, s⟩)) ∧
      (d2_messages history question).getLast? = some ⟨Role.user, question⟩) ∧
    d2_messages ["I have joint pain", "Likely osteoarthritis"]
        "What exercise helps knee pain?" =
      [⟨Role.user, "I have joint pain"⟩, ⟨Role.assistant, "Likely osteoarthritis"⟩,
       ⟨Role.user, "What exercise helps knee pain?"⟩] := by
  constructor
  · intro history question
    refine ⟨?_, fun i hi => ?_, ?_⟩
    · unfold d2_messages
      rw [List.length_append, historyMessages_length]
      rfl
    · unfold d2_messages
      rw [List.getElem?_append_left (by rw [historyMessages_length]; exact hi)]
      exact historyMessages_getElem? history i
    · unfold d2_messages
      exact List.getLast?_concat _
  · decide

/-- Witness for claim C3: the bounded-index clause applied at index 0 of
a two-entry history. -/
theorem claim_C3_witness :
    (d2_messages ["a", "b"] "c")[0]? =
      (["a", "b"] : List String)[0]?.map
        (fun s => ⟨if 0 % 2 = 0 then Role.user else Role.assistant, s⟩) :=
  (claim_C3.1 ["a", "b"] "c").2.1 0 (by decide)

/-- Claim C6: the empty search-result list renders as the fixed
non-empty no-results marker, verbatim; a non-empty list renders as the
numbered entries of its first at most five results, each entry carrying
the displayed title, the content-or-snippet text and the source url. -/
theorem claim_C6 :
    (format_search_results [] = "No search results available." ∧
      ("No search results available." : String) ≠ "") ∧
    (∀ rs : List SearchResult, rs ≠ [] →
      format_search_results rs = String.intercalate "\n" (formattedEntries rs) ∧
      (formattedEntries rs).length = min 5 rs.length ∧
      (formattedEntries rs).length ≤ 5) ∧
    (∀ (n : Nat) (r : SearchResult),
      entryLine n r =
        toString n ++ ". " ++ displayTitle r ++ "\n   " ++ displayContent r ++
          "\n   Source: " ++ displayUrl r ++ "\n") := by
  refine ⟨⟨rfl, by decide⟩, fun rs hrs => ?_, fun n r => rfl⟩
  have hlen : (formattedEntries rs).length = min 5 rs.length := by
    unfold formattedEntries
    rw [List.length_map, List.enumFrom_length, List.length_take]
  refine ⟨?_, hlen, ?_⟩
  · unfold format_search_results
    rw [if_neg (by simpa using hrs)]
  · rw [hlen]
    exact Nat.min_le_left 5 rs.length

/-- Witness for claim C6 at a one-element result list. -/
theorem claim_C6_witness :
    format_search_results [⟨some "T", some "C", none, some "U"⟩] =
      String.intercalate "\n" (formattedEntries [⟨some "T", some "C", none, some "U"⟩]) :=
  (claim_C6.2.1 [⟨some "T", some "C", none, some "U"⟩] (by decide)).1

lemma historyMessages_not_system (history : List String) (m : Message)
    (hm : m ∈ historyMessages history) : (m.role == Role.system) = false := by
  unfold historyMessages at hm
  rcases List.mem_map.1 hm with ⟨p, _, rfl⟩
  by_cases hp : p.1 % 2 = 0 <;> simp [hp]

/-- Claim C7: D4 message assembly is the alternating-role history
mapping, then exactly one injected system-role message carrying the
formatted search results at position history.length (between the history
and the final user turn), then the question as the final user turn; in
the full provider request (system instruction prepended) the injected
search-context message sits at position history.length + 1, which is
never the leading position. -/
theorem claim_C7 (history : List String) (question : String)
    (search_results : List SearchResult) :
    d4_messages history question search_results =
      historyMessages history ++ [searchContextMessage search_results] ++
        [⟨Role.user, question⟩] ∧
    ((d4_messages history question search_results).filter
        (fun m => m.role == Role.system)).length = 1 ∧
    (d4_messages history question search_results)[history.length]? =
      some (searchContextMessage search_results) ∧
    (d4_messages history question search_results).getLast? =
      some ⟨Role.user, question⟩ ∧
    (formatted_messages (some SYSTEM_PROMPT_d4_rag_with_history)
        (MsgInput.list (d4_messages history question search_results)))[history.length + 1]? =
      some (searchContextMessage search_results) ∧
    history.length + 1 ≠ 0 := by
  have hmid : (d4_messages history question search_results)[history.length]? =
      some (searchContextMessage search_results) := by
    unfold d4_messages
    rw [List.append_assoc,
      List.getElem?_append_right (by rw [historyMessages_length])]
    rw [historyMessages_length]
    simp
  refine ⟨rfl, ?_, hmid, ?_, ?_, Nat.succ_ne_zero _⟩
  · unfold d4_messages
    rw [List.filter_append, List.filter_append]
    rw [List.filter_eq_nil_iff.mpr
      (fun m hm => by simp [historyMessages_not_system history m hm])]
    rfl
  · unfold d4_messages
    exact List.getLast?_concat _
  · have hfm : formatted_messages (some SYSTEM_PROMPT_d4_rag_with_history)
        (MsgInput.list (d4_messages history question search_results)) =
        ⟨Role.system, SYSTEM_PROMPT_d4_rag_with_history⟩ ::
          d4_messages history question search_results := rfl
    rw [hfm, List.getElem?_cons_succ]
    exact hmid

/-- Claim C9: the focus-coverage evaluator is a function of the response
text and the expected focus list; each term contributes weight 1 on a
full lower-cased match, otherwise weight 0.5 or 0 (never both weights
for one term); the coverage is the summed weights over the number of
terms; and for the terms 운동 and 치료 with a response containing 운동
only, the coverage is 0.5. -/
theorem claim_C9 :
    (∀ (response : String) (expected_focus : List String),
      (∀ f,
        (strIn (strLower f) (strLower response) = true →
          focusWeight (strLower response) f = 1) ∧
        (strIn (strLower f) (strLower response) = false →
          focusWeight (strLower response) f = 1/2 ∨
            focusWeight (strLower response) f = 0)) ∧
      (expected_focus ≠ [] →
        calculate_focus_coverage response expected_focus =
          ((expected_focus.map (focusWeight (strLower response))).sum) /
            (expected_focus.length : ℚ))) ∧
    calculate_focus_coverage "무릎 통증에는 운동이 좋습니다" ["운동", "치료"] = 1/2 := by
  refine ⟨fun response expected_focus => ⟨fun f => ⟨fun hful => ?_, fun hnot => ?_⟩, fun hne => ?_⟩, ?_⟩
  · unfold focusWeight
    rw [if_pos hful]
  · unfold focusWeight
    rw [if_neg (by simp [hnot])]
    by_cases hp : (pySplitWs (strLower f)).any
        (fun w => decide (3 < w.length) && listHasSub w (strLower response).data) = true
    · left; rw [if_pos hp]
    · right; rw [if_neg hp]
  · unfold calculate_focus_coverage
    rw [if_neg (by simpa using hne)]
  · have h1 : strIn (strLower "운동") (strLower "무릎 통증에는 운동이 좋습니다") = true := by
      decide
    have h2 : strIn (strLower "치료") (strLower "무릎 통증에는 운동이 좋습니다") = false := by
      decide
    have h3 : (pySplitWs (strLower "치료")).any
        (fun w => decide (3 < w.length) &&
          listHasSub w (strLower "무릎 통증에는 운동이 좋습니다").data) = false := by
      decide
    simp only [calculate_focus_coverage, focusWeight, h1, h2, h3, List.map, List.isEmpty,
      if_true, if_false, Bool.false_eq_true, List.sum_cons, List.sum_nil, List.length_cons,
      List.length_nil]
    norm_num

/-- Witness for claim C9: the coverage formula applied to a singleton
focus list. -/
theorem claim_C9_witness :
    calculate_focus_coverage "x" ["y"] =
      (((["y"] : List String).map (focusWeight (strLower "x"))).sum) /
        ((["y"] : List String).length : ℚ) :=
  (claim_C9.1 "x" ["y"]).2 (by decide)

/-- Claim C2 as stated is false: with no API key, search_with_fallback
does return an empty result set tagged engine none without raising, but
the returned record does carry an error field, namely No search API key
provided.  Shown at a handler constructed with engine duckduckgo and no
key (construction with no key is impossible for tavily or brave). -/
theorem claim_C2_counterexample :
    SearchHandler.make "duckduckgo" none = Except.ok handlerNoKey ∧
    handlerNoKey.search_with_fallback netEmpty "q" =
      Except.ok { results := [], query := "q", engine := "none", answer := none,
                  error := some "No search API key provided" } ∧
    some "No search API key provided" ≠ (none : Option String) := by
  refine ⟨rfl, rfl, by decide⟩

/-- Claim C2 amended: for every query, a handler constructed with no API
key (its engine therefore outside tavily and brave, where construction
raises; any remaining engine makes every search call raise as
unsupported) returns from search_with_fallback, without raising, the
empty result set tagged engine none — carrying the error field No
search API key provided rather than no error field. -/
theorem claim_C2_amended (engine query : String) (net : Net) (h : SearchHandler)
    (hmk : SearchHandler.make engine none = Except.ok h)
    (ht : h.engine ≠ "tavily") (hb : h.engine ≠ "brave") :
    h.search_with_fallback net query =
      Except.ok { results := [], query := query, engine := "none", answer := none,
                  error := some "No search API key provided" } := by
  have hkey : h.api_key = none := by
    unfold SearchHandler.make at hmk
    by_cases hc : (!pyTruthy none && (engine == "tavily" || engine == "brave")) = true
    · rw [if_pos hc] at hmk
      cases hmk
    · rw [if_neg hc] at hmk
      cases hmk
      rfl
  unfold SearchHandler.search_with_fallback SearchHandler.search
  rw [if_neg (by simpa using ht), if_neg (by simpa using hb)]
  rw [hkey]
  rfl

/-- Witness for the amended claim C2. -/
theorem claim_C2_amended_witness :
    handlerNoKey.search_with_fallback netEmpty "q2" =
      Except.ok { results := [], query := "q2", engine := "none", answer := none,
                  error := some "No search API key provided" } :=
  claim_C2_amended "duckduckgo" "q2" netEmpty handlerNoKey rfl (by decide) (by decide)

/-- Claim C1 as stated is false for the enhancement collaborator: when
only the provider call made by query enhancement fails, run_d4 does not
return an error record; it falls back to the original question,
proceeds, and returns a success record with a response, retaining the
enhancement failure only inside the query_enhancement field. -/
theorem claim_C1_counterexample :
    (enhance_query llmLenOne [] "q").error =
      some "Query enhancement failed: LLM generation failed: enhancement provider down" ∧
    (run_d4 llmLenOne none [] "q" "t").error = none ∧
    (run_d4 llmLenOne none [] "q" "t").response = some "resp" ∧
    (run_d4 llmLenOne none [] "q" "t").query_enhancement =
      some (enhance_query llmLenOne [] "q") := by
  exact ⟨rfl, rfl, rfl, rfl⟩

/-- Claim C1 amended: every strategy entry point returns exactly one
record tagged with its strategy identifier and carrying the supplied
timestamp, and never raises; the record carries an error message in
place of the response fields exactly when the search or generation step
of that strategy failed — a failure of the enhancement provider call
alone does not produce an error record. -/
theorem claim_C1_amended (llm : LLM) (searchH : SearchSlot) (history : List String)
    (question now : String) :
    wellFormedResult (run_d1 llm question now) "D1_LLM_ONLY" now ∧
    wellFormedResult (run_d2 llm history question now) "D2_LLM_WITH_HISTORY" now ∧
    wellFormedResult (run_d3 llm searchH question now) "D3_RAG_CURRENT_ONLY" now ∧
    wellFormedResult (run_d4 llm searchH history question now) "D4_RAG_WITH_HISTORY" now ∧
    ((run_d1 llm question now).error = none ↔
      (generate_d1_response llm question).isOk = true) ∧
    ((run_d2 llm history question now).error = none ↔
      (generate_d2_response llm history question).isOk = true) ∧
    ((run_d3 llm searchH question now).error = none ↔
      (d3_pipeline llm searchH question).isOk = true) ∧
    ((run_d4 llm searchH history question now).error = none ↔
      (d4_pipeline llm searchH history question).isOk = true) := by
  refine ⟨?_, ?_, ?_, ?_, ?_, ?_, ?_, ?_⟩
  · unfold run_d1 wellFormedResult
    cases generate_d1_response llm question <;> simp
  · unfold run_d2 wellFormedResult
    cases generate_d2_response llm history question <;> simp
  · unfold run_d3 wellFormedResult
    rcases h : d3_pipeline llm searchH question with e | ⟨⟨results, engine⟩, r⟩ <;> simp
  · unfold run_d4 wellFormedResult
    rcases h : d4_pipeline llm searchH history question with e | ⟨⟨results, engine⟩, r⟩ <;> simp
  · unfold run_d1
    cases generate_d1_response llm question <;> simp [Except.isOk, Except.toBool]
  · unfold run_d2
    cases generate_d2_response llm history question <;> simp [Except.isOk, Except.toBool]
  · unfold run_d3
    rcases d3_pipeline llm searchH question with e | ⟨⟨results, engine⟩, r⟩ <;>
      simp [Except.isOk, Except.toBool]
  · unfold run_d4
    rcases d4_pipeline llm searchH history question with e | ⟨⟨results, engine⟩, r⟩ <;>
      simp [Except.isOk, Except.toBool]
